import Mathlib

/-!
A shallow embedding of `src/data/sparse_page_dmatrix.cc` (the external-memory
`SparsePageDMatrix` orchestrator of xgboost) together with proofs about its
metadata accounting, cache-invalidation and page-source management logic.

The orchestrator's mutable state becomes an explicit record `DState`; each
member function becomes a pure function from state to a `StepResult` carrying
the new state, a trace of observable effects (registry lookups, external
iterator binding, page-source creation/reset, quantile sketching) and either a
returned value or the fatal `CHECK` that fired.  Collaborators living outside
this translation unit (the `BatchParam` record, `common::AssertGPUSupport`,
`common::SketchOnDMatrix`, `MetaInfo::Extend`, `DMatrix::IsDense`, rabit's
allreduce) are modelled from the spec, as indicated on each definition.
-/

namespace SparsePageDMatrix

/-- Modelled from the spec: the `BatchParam` record is declared outside this
translation unit.  Per the spec's data model it carries the maximum bin count,
an optional per-row weighting (`hess`) and a force-regenerate flag; two
parameter records are equal when all components agree.  `max_bin` is a C `int`,
hence `Int`. -/
structure BatchParam where
  max_bin : Int
  hess : List Nat
  regen : Bool
deriving DecidableEq, Repr

/-- Modelled from the spec: the value-initialized `BatchParam\x7b\x7d` used by the
source as the "default parameters" wildcard. -/
def defaultBatchParam : BatchParam := { max_bin := 0, hess := [], regen := false }

/-- One raw batch as delivered by the external iterator into the proxy:
row/column/nonzero counts, per-feature type tags, and whether the host-side
type dispatch (`HostAdapterDispatch`) can inspect it (`false` models the
`type_error` case of a device-resident batch). -/
structure RawBatch where
  rows : Nat
  cols : Nat
  nnz : Nat
  fts : List Nat
  hostQueryable : Bool
deriving DecidableEq, Repr

/-- A materialized row page; `nnz` is `page.data.Size()`. -/
structure RowPage where
  nnz : Nat
deriving DecidableEq, Repr

/-- A cache-registry entry for one format: the `written` flag plus a
generation number so that erase-and-recreate is observable. -/
structure CacheEntry where
  written : Bool
  gen : Nat
deriving DecidableEq, Repr

/-- The primary row-page source (`SparsePageSource`): a generation number
(fresh per `make_shared`) and a replay position (`Reset()` sets it to 0). -/
structure SparseSource where
  gen : Nat
  pos : Nat
deriving DecidableEq, Repr

/-- A column / sorted-column derived source (`CSCPageSource`,
`SortedCSCPageSource`): generation, position, and the generation of the shared
upstream row-page source it was bound to. -/
structure DerivedSource where
  gen : Nat
  pos : Nat
  upstream : Nat
deriving DecidableEq, Repr

/-- Global bin-boundary cuts as returned by `common::SketchOnDMatrix`
(a collaborator): identified by the arguments of the sketch call plus the
number of cut values the collaborator produced (`cuts.Values().size()`). -/
structure HistogramCuts where
  maxBin : Int
  sorted : Bool
  hess : List Nat
  nValues : Nat
deriving DecidableEq, Repr

/-- The in-memory single-page `GHistIndexMatrix` built in the non-weighted
regime, recording the constructor arguments `(this, param.max_bin,
param.regen)`. -/
structure GhistPage where
  gen : Nat
  maxBin : Int
  regen : Bool
deriving DecidableEq, Repr

/-- The on-disk `GradientIndexPageSource`: generation, position, and the data
it was bound to at construction (parameters, cuts, density flag, feature
types, upstream row-source generation). -/
structure GhistSource where
  gen : Nat
  pos : Nat
  param : BatchParam
  cuts : HistogramCuts
  isDense : Bool
  ft : List Nat
  upstream : Nat
deriving DecidableEq, Repr

/-- The slice of `MetaInfo` this translation unit writes: row count, column
count, nonzero count and per-feature type tags. -/
structure MetaInfo where
  num_row : Nat
  num_col : Nat
  num_nonzero : Nat
  feature_types : List Nat
deriving DecidableEq, Repr

/-- The orchestrator state: dataset metadata, batch count, the logical row
pages backing the cache, one registry entry per format, at most one live
instance of each page-source variant, the last-used batch parameters, and a
fresh-generation counter. -/
structure DState where
  info : MetaInfo
  n_batches : Nat
  datasetPages : List RowPage
  rowCache : Option CacheEntry
  colCache : Option CacheEntry
  sortedColCache : Option CacheEntry
  ghistCache : Option CacheEntry
  sparse_page_source : Option SparseSource
  column_source : Option DerivedSource
  sorted_column_source : Option DerivedSource
  ghist_index_page : Option GhistPage
  ghist_index_source : Option GhistSource
  batch_param : BatchParam
  nextGen : Nat
deriving DecidableEq, Repr

/-- Page-format tags used by the cache registry and the effect trace. -/
inductive Fmt
  | row
  | col
  | sortedCol
  | ghist
  | ellpack
deriving DecidableEq, Repr

/-- Observable effects of one orchestrator operation. -/
inductive Event
  | makeCache (f : Fmt)
  | eraseCache (f : Fmt)
  | bindIterator
  | createSource (f : Fmt)
  | resetSource (f : Fmt)
  | sketch (sorted : Bool)
  | buildGhistPage
deriving DecidableEq, Repr

/-- The fatal checks this translation unit (or a modelled collaborator) can
fire. -/
inductive Err
  | zeroColumns
  | maxBinTooSmall
  | missingSource
  | emptyCuts
  | gpuUnsupported
deriving DecidableEq, Repr

deriving instance DecidableEq for Except

/-- Outcome of one orchestrator operation: post-state, effect trace (up to the
point of a fatal check, when one fires), and the returned value or the fatal
error. -/
structure StepResult (α : Type) where
  st : DState
  trace : List Event
  out : Except Err α
deriving DecidableEq, Repr

/-- Build configuration: this embedding models the CPU-only build
(`XGBOOST_USE_CUDA` not defined), the build the `#else` bodies in the source
belong to. -/
def xgboostUseCuda : Bool := false

/-- Modelled from the spec: `common::AssertGPUSupport` is declared outside
this translation unit; per the spec it fails fatally with a capability-missing
error when the build has no device support. -/
def assertGPUSupport : Except Err Unit :=
  if xgboostUseCuda then Except.ok () else Except.error Err.gpuUnsupported

/-- `detail::NSamplesDevice`, CPU-only body: `AssertGPUSupport(); return 0;`
(the `return 0` is unreachable because the assertion is fatal). -/
def NSamplesDevice (_b : RawBatch) : Except Err Nat :=
  match assertGPUSupport with
  | Except.error e => Except.error e
  | Except.ok _ => Except.ok 0

/-- `detail::NFeaturesDevice`, CPU-only body. -/
def NFeaturesDevice (_b : RawBatch) : Except Err Nat :=
  match assertGPUSupport with
  | Except.error e => Except.error e
  | Except.ok _ => Except.ok 0

/-- The `num_rows` lambda of the constructor: host-side dispatch, falling back
to the device path on a type-dispatch miss. -/
def numRows (b : RawBatch) : Except Err Nat :=
  if b.hostQueryable then Except.ok b.rows else NSamplesDevice b

/-- The `num_cols` lambda of the constructor. -/
def numCols (b : RawBatch) : Except Err Nat :=
  if b.hostQueryable then Except.ok b.cols else NFeaturesDevice b

/-- Modelled from the spec: `MetaInfo::Extend` is declared outside this
translation unit; the spec only requires per-batch metadata (here: feature
type tags) to be merged without duplicating global fields, so the first
batch's tags are kept. -/
def extendFts (cur incoming : List Nat) : List Nat :=
  if cur.isEmpty then incoming else cur

/-- Modelled from the spec: the distributed-max reduction
(`rabit::Allreduce<rabit::op::Max>`) is a collaborator primitive computing the
maximum of a scalar across all workers. -/
def allreduceMax (loc : Nat) (others : List Nat) : Nat :=
  others.foldl max loc

/-- The running accumulators of the constructor's single metadata pass. -/
structure ConstructAcc where
  n_features : Nat
  n_samples : Nat
  nnz : Nat
  n_batches : Nat
  fts : List Nat
  pages : List RowPage
deriving DecidableEq, Repr

/-- One iteration of the constructor's pass: merge per-batch metadata, update
the running column-count maximum and the row/nonzero accumulators, and
materialize one row page. -/
def scanBatch (acc : ConstructAcc) (b : RawBatch) : Except Err ConstructAcc :=
  match numCols b with
  | Except.error e => Except.error e
  | Except.ok nc =>
    match numRows b with
    | Except.error e => Except.error e
    | Except.ok nr =>
      Except.ok
        { n_features := max acc.n_features nc
          n_samples := acc.n_samples + nr
          nnz := acc.nnz + b.nnz
          n_batches := acc.n_batches + 1
          fts := extendFts acc.fts b.fts
          pages := acc.pages ++ [{ nnz := b.nnz }] }

/-- The constructor's loop over the pages delivered by the external
iterator. -/
def constructLoop : List RawBatch → ConstructAcc → Except Err ConstructAcc
  | [], acc => Except.ok acc
  | b :: bs, acc =>
    match scanBatch acc b with
    | Except.error e => Except.error e
    | Except.ok acc' => constructLoop bs acc'

/-- `SparsePageDMatrix::SparsePageDMatrix`: one pass over the external
iterator accumulating shape metadata, then the distributed-max reduction on
the column count and the `CHECK_NE(info_.num_col_, 0)`.  `batches` is the
sequence of raw batches the iterator delivers; `otherWorkerCols` the column
counts contributed by the other distributed workers.  After the pass the row
pages are fully cached (the pass materializes every page), so the row cache
entry is written and the primary source exists. -/
def construct (batches : List RawBatch) (otherWorkerCols : List Nat) :
    Except Err DState :=
  match constructLoop batches
      { n_features := 0, n_samples := 0, nnz := 0, n_batches := 0,
        fts := [], pages := [] } with
  | Except.error e => Except.error e
  | Except.ok acc =>
    let ncol := allreduceMax acc.n_features otherWorkerCols
    if ncol = 0 then Except.error Err.zeroColumns
    else
      Except.ok
        { info :=
            { num_row := acc.n_samples, num_col := ncol,
              num_nonzero := acc.nnz, feature_types := acc.fts }
          n_batches := acc.n_batches
          datasetPages := acc.pages
          rowCache := some { written := true, gen := 0 }
          colCache := none
          sortedColCache := none
          ghistCache := none
          sparse_page_source := some { gen := 1, pos := 0 }
          column_source := none
          sorted_column_source := none
          ghist_index_page := none
          ghist_index_source := none
          batch_param := defaultBatchParam
          nextGen := 2 }

/-- Modelled from the spec: `DMatrix::IsDense` is declared outside this
translation unit; the density flag is true when every entry of the
row-by-column grid is a stored nonzero. -/
def isDense (s : DState) : Bool :=
  s.info.num_nonzero == s.info.num_row * s.info.num_col

/-- `MakeCache` (get-or-create): return the existing entry, or a fresh
not-yet-written one allocated from the generation counter.  The second
component is the updated generation counter. -/
def makeCacheEntry (e : Option CacheEntry) (g : Nat) : CacheEntry × Nat :=
  match e with
  | some c => (c, g)
  | none => ({ written := false, gen := g }, g + 1)

/-- `SparsePageDMatrix::InitializeSparsePage`: get-or-create the row cache
entry; if it is already written, `CHECK(sparse_page_source_)` and reset the
existing source (disk replay); otherwise bind the external iterator and proxy
and create a fresh `SparsePageSource` in its place. -/
def initializeSparsePage (s : DState) : StepResult Unit :=
  let eg := makeCacheEntry s.rowCache s.nextGen
  let s1 : DState := { s with rowCache := some eg.1, nextGen := eg.2 }
  if eg.1.written then
    match s1.sparse_page_source with
    | none => ⟨s1, [Event.makeCache Fmt.row], Except.error Err.missingSource⟩
    | some src =>
      ⟨{ s1 with sparse_page_source := some { src with pos := 0 } },
        [Event.makeCache Fmt.row, Event.resetSource Fmt.row], Except.ok ()⟩
  else
    let src : SparseSource := { gen := s1.nextGen, pos := 0 }
    ⟨{ s1 with sparse_page_source := some src, nextGen := s1.nextGen + 1 },
      [Event.makeCache Fmt.row, Event.bindIterator, Event.createSource Fmt.row],
      Except.ok ()⟩

/-- `SparsePageDMatrix::GetRowBatchesImpl`: initialize (or reset) the primary
source and return a batch iterator over it; the iterator yields the row pages
from the source's current position onward. -/
def getRowBatchesImpl (s : DState) : StepResult (List RowPage) :=
  let r := initializeSparsePage s
  match r.out with
  | Except.error e => ⟨r.st, r.trace, Except.error e⟩
  | Except.ok _ =>
    match r.st.sparse_page_source with
    | none => ⟨r.st, r.trace, Except.error Err.missingSource⟩
    | some src => ⟨r.st, r.trace, Except.ok (r.st.datasetPages.drop src.pos)⟩

/-- `SparsePageDMatrix::GetRowBatches`. -/
def getRowBatches (s : DState) : StepResult (List RowPage) :=
  getRowBatchesImpl s

/-- Environment step: a consumer advancing the primary source's batch
iterator by `k` pages between orchestrator calls.  Not part of the source's
orchestrator; used to express that a later `GetRowBatches` restarts instead of
resuming. -/
def advanceRowSource (s : DState) (k : Nat) : DState :=
  match s.sparse_page_source with
  | none => s
  | some src => { s with sparse_page_source := some { src with pos := src.pos + k } }

/-- `SparsePageDMatrix::GetColumnBatches`: get-or-create the column cache
entry, `CHECK_NE(num_col_, 0)`, initialize the primary source, then create the
derived column source bound to it (first call) or reset the existing one. -/
def getColumnBatches (s : DState) : StepResult DerivedSource :=
  let eg := makeCacheEntry s.colCache s.nextGen
  let s1 : DState := { s with colCache := some eg.1, nextGen := eg.2 }
  if s1.info.num_col = 0 then
    ⟨s1, [Event.makeCache Fmt.col], Except.error Err.zeroColumns⟩
  else
    let r := initializeSparsePage s1
    match r.out with
    | Except.error e => ⟨r.st, Event.makeCache Fmt.col :: r.trace, Except.error e⟩
    | Except.ok _ =>
      match r.st.column_source with
      | none =>
        let up : Nat :=
          match r.st.sparse_page_source with
          | some sp => sp.gen
          | none => 0
        let src : DerivedSource := { gen := r.st.nextGen, pos := 0, upstream := up }
        ⟨{ r.st with column_source := some src, nextGen := r.st.nextGen + 1 },
          Event.makeCache Fmt.col :: r.trace ++ [Event.createSource Fmt.col],
          Except.ok src⟩
      | some src =>
        let src' : DerivedSource := { src with pos := 0 }
        ⟨{ r.st with column_source := some src' },
          Event.makeCache Fmt.col :: r.trace ++ [Event.resetSource Fmt.col],
          Except.ok src'⟩

/-- `SparsePageDMatrix::GetSortedColumnBatches`: same shape as the column
path, against the sorted-column cache entry and source. -/
def getSortedColumnBatches (s : DState) : StepResult DerivedSource :=
  let eg := makeCacheEntry s.sortedColCache s.nextGen
  let s1 : DState := { s with sortedColCache := some eg.1, nextGen := eg.2 }
  if s1.info.num_col = 0 then
    ⟨s1, [Event.makeCache Fmt.sortedCol], Except.error Err.zeroColumns⟩
  else
    let r := initializeSparsePage s1
    match r.out with
    | Except.error e => ⟨r.st, Event.makeCache Fmt.sortedCol :: r.trace, Except.error e⟩
    | Except.ok _ =>
      match r.st.sorted_column_source with
      | none =>
        let up : Nat :=
          match r.st.sparse_page_source with
          | some sp => sp.gen
          | none => 0
        let src : DerivedSource := { gen := r.st.nextGen, pos := 0, upstream := up }
        ⟨{ r.st with sorted_column_source := some src, nextGen := r.st.nextGen + 1 },
          Event.makeCache Fmt.sortedCol :: r.trace ++ [Event.createSource Fmt.sortedCol],
          Except.ok src⟩
      | some src =>
        let src' : DerivedSource := { src with pos := 0 }
        ⟨{ r.st with sorted_column_source := some src' },
          Event.makeCache Fmt.sortedCol :: r.trace ++ [Event.resetSource Fmt.sortedCol],
          Except.ok src'⟩

/-- Result of `GetGradientIndex`: either the single in-memory page (wrapped in
a `SimpleBatchIteratorImpl`) or an iterator over the on-disk gradient-index
source. -/
inductive GhistBatches
  | singlePage (pg : GhistPage)
  | fromSource (src : GhistSource)
deriving DecidableEq, Repr

/-- The rebuild arm of the in-memory regime of `GetGradientIndex`:
`InitializeSparsePage()`, build a fresh `GHistIndexMatrix(this, param.max_bin,
param.regen)`, `InitializeSparsePage()` again, and record the parameters. -/
def rebuildGhistPage (s : DState) (p : BatchParam) : StepResult GhistBatches :=
  let r := initializeSparsePage s
  match r.out with
  | Except.error e => ⟨r.st, r.trace, Except.error e⟩
  | Except.ok _ =>
    let pg : GhistPage := { gen := r.st.nextGen, maxBin := p.max_bin, regen := p.regen }
    let s2 : DState := { r.st with ghist_index_page := some pg, nextGen := r.st.nextGen + 1 }
    let r2 := initializeSparsePage s2
    match r2.out with
    | Except.error e => ⟨r2.st, r.trace ++ Event.buildGhistPage :: r2.trace, Except.error e⟩
    | Except.ok _ =>
      ⟨{ r2.st with batch_param := p },
        r.trace ++ Event.buildGhistPage :: r2.trace,
        Except.ok (GhistBatches.singlePage pg)⟩

/-- The rebuild arm of the on-disk regime of `GetGradientIndex`, entered on
the fresh cache entry's state `s3`: compute the bin-boundary cuts with a
sorted sketch exactly when regen is forced, `InitializeSparsePage()` again
("reset after use"), record the parameters, discard the histogram-index
source, `CHECK_NE(cuts.Values().size(), 0)`, and rebuild the source bound to
the cuts, feature types, density flag and the shared row-page source. -/
def ghistDiskRebuild (s3 : DState) (p : BatchParam) (nCutValues : Nat) :
    StepResult GhistBatches :=
  let sorted_sketch := p.regen
  let cuts : HistogramCuts :=
    { maxBin := p.max_bin, sorted := sorted_sketch, hess := p.hess,
      nValues := nCutValues }
  let r2 := initializeSparsePage s3
  match r2.out with
  | Except.error e =>
    ⟨r2.st, Event.sketch sorted_sketch :: r2.trace, Except.error e⟩
  | Except.ok _ =>
    let s4 : DState := { r2.st with batch_param := p, ghist_index_source := none }
    if cuts.nValues = 0 then
      ⟨s4, Event.sketch sorted_sketch :: r2.trace, Except.error Err.emptyCuts⟩
    else
      let up : Nat :=
        match s4.sparse_page_source with
        | some sp => sp.gen
        | none => 0
      let src : GhistSource :=
        { gen := s4.nextGen, pos := 0, param := p, cuts := cuts,
          isDense := isDense s4, ft := s4.info.feature_types, upstream := up }
      ⟨{ s4 with ghist_index_source := some src, nextGen := s4.nextGen + 1 },
        Event.sketch sorted_sketch :: r2.trace ++ [Event.createSource Fmt.ghist],
        Except.ok (GhistBatches.fromSource src)⟩

/-- `SparsePageDMatrix::GetGradientIndex`: `CHECK_GE(param.max_bin, 2)`, then
either the in-memory single-page regime (no row weighting, no forced regen)
with its last-value cache-invalidation gate, or the on-disk regime.
`nCutValues` is the number of cut values the `common::SketchOnDMatrix`
collaborator returns for this dataset and parameters
(`cuts.Values().size()`). -/
def getGradientIndex (s : DState) (p : BatchParam) (nCutValues : Nat) :
    StepResult GhistBatches :=
  if p.max_bin < 2 then ⟨s, [], Except.error Err.maxBinTooSmall⟩
  else if p.hess.isEmpty && !p.regen then
    match s.ghist_index_page with
    | none => rebuildGhistPage s p
    | some pg =>
      if p ≠ s.batch_param ∧ p ≠ defaultBatchParam then rebuildGhistPage s p
      else ⟨s, [], Except.ok (GhistBatches.singlePage pg)⟩
  else
    let eg := makeCacheEntry s.ghistCache s.nextGen
    let s1 : DState := { s with ghistCache := some eg.1, nextGen := eg.2 }
    let r := initializeSparsePage s1
    match r.out with
    | Except.error e => ⟨r.st, Event.makeCache Fmt.ghist :: r.trace, Except.error e⟩
    | Except.ok _ =>
      let s2 := r.st
      if ¬eg.1.written ∨ (s.batch_param ≠ p ∧ p ≠ defaultBatchParam) ∨ p.regen then
        let e2 : CacheEntry := { written := false, gen := s2.nextGen }
        let s3 : DState := { s2 with ghistCache := some e2, nextGen := s2.nextGen + 1 }
        let r2 := ghistDiskRebuild s3 p nCutValues
        ⟨r2.st,
          Event.makeCache Fmt.ghist :: r.trace ++
            Event.eraseCache Fmt.ghist :: Event.makeCache Fmt.ghist :: r2.trace,
          r2.out⟩
      else
        match s2.ghist_index_source with
        | none =>
          ⟨s2, Event.makeCache Fmt.ghist :: r.trace, Except.error Err.missingSource⟩
        | some src =>
          let src' : GhistSource := { src with pos := 0 }
          ⟨{ s2 with ghist_index_source := some src' },
            Event.makeCache Fmt.ghist :: r.trace ++ [Event.resetSource Fmt.ghist],
            Except.ok (GhistBatches.fromSource src')⟩

/-- `SparsePageDMatrix::GetEllpackBatches`, CPU-only body:
`common::AssertGPUSupport()` first, so in this build the call is fatal before
an iterator is produced. -/
def getEllpackBatches (s : DState) (_p : BatchParam) : StepResult Unit :=
  match assertGPUSupport with
  | Except.error e => ⟨s, [], Except.error e⟩
  | Except.ok _ => ⟨s, [], Except.ok ()⟩

/-- Coherence of the row cache with the primary source: a written row cache
entry is only ever observed while the primary source that wrote it is alive
(the constructor establishes this and every operation preserves it). -/
def rowCoherent (s : DState) : Prop :=
  ∀ e, s.rowCache = some e → e.written = true → s.sparse_page_source.isSome = true

/-- The spec-side rebuild condition of the on-disk histogram-index regime:
no cache entry, or an entry that is not fully written, or parameters that
differ from the last-used ones, or forced regen. -/
def ghistRebuildCond (s : DState) (p : BatchParam) : Prop :=
  s.ghistCache = none ∨ (∃ e, s.ghistCache = some e ∧ e.written = false) ∨
    s.batch_param ≠ p ∨ p.regen = true

/-- A 3-batch demo dataset (the spec's scenario: 100/150/50 rows, 20 columns
each). -/
def demoBatches : List RawBatch :=
  [ { rows := 100, cols := 20, nnz := 7, fts := [1, 1], hostQueryable := true },
    { rows := 150, cols := 20, nnz := 8, fts := [2], hostQueryable := true },
    { rows := 50, cols := 20, nnz := 9, fts := [], hostQueryable := true } ]

/-- The orchestrator state `construct demoBatches []` produces. -/
def demoState : DState :=
  { info := { num_row := 300, num_col := 20, num_nonzero := 24, feature_types := [1, 1] }
    n_batches := 3
    datasetPages := [{ nnz := 7 }, { nnz := 8 }, { nnz := 9 }]
    rowCache := some { written := true, gen := 0 }
    colCache := none
    sortedColCache := none
    ghistCache := none
    sparse_page_source := some { gen := 1, pos := 0 }
    column_source := none
    sorted_column_source := none
    ghist_index_page := none
    ghist_index_source := none
    batch_param := defaultBatchParam
    nextGen := 2 }

/-- Batch parameters with `max_bin` 256 and no weights. -/
def p256 : BatchParam := { max_bin := 256, hess := [], regen := false }

/-- Batch parameters with `max_bin` 64 and no weights. -/
def p64 : BatchParam := { max_bin := 64, hess := [], regen := false }

theorem init_frame (s : DState) :
    (initializeSparsePage s).st.info = s.info ∧
    (initializeSparsePage s).st.n_batches = s.n_batches ∧
    (initializeSparsePage s).st.datasetPages = s.datasetPages ∧
    (initializeSparsePage s).st.colCache = s.colCache ∧
    (initializeSparsePage s).st.sortedColCache = s.sortedColCache ∧
    (initializeSparsePage s).st.ghistCache = s.ghistCache ∧
    (initializeSparsePage s).st.column_source = s.column_source ∧
    (initializeSparsePage s).st.sorted_column_source = s.sorted_column_source ∧
    (initializeSparsePage s).st.ghist_index_page = s.ghist_index_page ∧
    (initializeSparsePage s).st.ghist_index_source = s.ghist_index_source ∧
    (initializeSparsePage s).st.batch_param = s.batch_param := by
  cases hc : s.rowCache <;> cases hsrc : s.sparse_page_source <;>
    simp [initializeSparsePage, makeCacheEntry, hc, hsrc] <;>
    split <;> simp

theorem init_info (s : DState) : (initializeSparsePage s).st.info = s.info :=
  (init_frame s).1

theorem init_ghistCache (s : DState) :
    (initializeSparsePage s).st.ghistCache = s.ghistCache :=
  (init_frame s).2.2.2.2.2.1

theorem init_ok (s : DState) (h : rowCoherent s) :
    (initializeSparsePage s).out = Except.ok () := by
  cases hc : s.rowCache with
  | none => simp [initializeSparsePage, makeCacheEntry, hc]
  | some e =>
    cases hw : e.written with
    | false => simp [initializeSparsePage, makeCacheEntry, hc, hw]
    | true =>
      have hs := h e hc hw
      cases hsrc : s.sparse_page_source with
      | none => rw [hsrc] at hs; simp at hs
      | some src => simp [initializeSparsePage, makeCacheEntry, hc, hw, hsrc]

theorem init_written (s : DState) (e : CacheEntry) (src : SparseSource)
    (he : s.rowCache = some e) (hw : e.written = true)
    (hs : s.sparse_page_source = some src) :
    initializeSparsePage s =
      ⟨{ s with sparse_page_source := some { src with pos := 0 } },
        [Event.makeCache Fmt.row, Event.resetSource Fmt.row], Except.ok ()⟩ := by
  simp [initializeSparsePage, makeCacheEntry, he, hw, hs]

theorem init_trace_cases (s : DState) :
    (initializeSparsePage s).trace =
        [Event.makeCache Fmt.row, Event.resetSource Fmt.row] ∨
    (initializeSparsePage s).trace =
        [Event.makeCache Fmt.row, Event.bindIterator, Event.createSource Fmt.row] ∨
    (initializeSparsePage s).trace = [Event.makeCache Fmt.row] := by
  cases hc : s.rowCache <;> cases hsrc : s.sparse_page_source <;>
    simp [initializeSparsePage, makeCacheEntry, hc, hsrc] <;>
    split <;> simp

theorem init_source_pos (s : DState) (h : (initializeSparsePage s).out = Except.ok ()) :
    ∃ g, (initializeSparsePage s).st.sparse_page_source = some { gen := g, pos := 0 } := by
  cases hc : s.rowCache <;> cases hsrc : s.sparse_page_source <;>
    simp [initializeSparsePage, makeCacheEntry, hc, hsrc] at h ⊢ <;>
    (try split) <;> simp_all

theorem init_rowCoherent (s : DState) (h : rowCoherent s) :
    rowCoherent (initializeSparsePage s).st := by
  intro e he hw
  cases hc : s.rowCache with
  | none => simp [initializeSparsePage, makeCacheEntry, hc] at he ⊢
  | some e0 =>
    cases hw0 : e0.written with
    | false => simp [initializeSparsePage, makeCacheEntry, hc, hw0] at he ⊢
    | true =>
      have hs := h e0 hc hw0
      cases hsrc : s.sparse_page_source with
      | none => rw [hsrc] at hs; simp at hs
      | some src => simp [initializeSparsePage, makeCacheEntry, hc, hw0, hsrc]


theorem getRowBatches_info (s : DState) : (getRowBatches s).st.info = s.info := by
  simp only [getRowBatches, getRowBatchesImpl]
  repeat' split
  all_goals simp [init_info]

theorem getColumnBatches_info (s : DState) : (getColumnBatches s).st.info = s.info := by
  simp only [getColumnBatches]
  repeat' split
  all_goals simp [init_info]

theorem getSortedColumnBatches_info (s : DState) :
    (getSortedColumnBatches s).st.info = s.info := by
  simp only [getSortedColumnBatches]
  repeat' split
  all_goals simp [init_info]

theorem rebuildGhistPage_info (s : DState) (p : BatchParam) :
    (rebuildGhistPage s p).st.info = s.info := by
  simp only [rebuildGhistPage]
  repeat' split
  all_goals simp [init_info]

theorem ghistDiskRebuild_info (s : DState) (p : BatchParam) (n : Nat) :
    (ghistDiskRebuild s p n).st.info = s.info := by
  simp only [ghistDiskRebuild]
  repeat' split
  all_goals simp [init_info]

theorem getGradientIndex_info (s : DState) (p : BatchParam) (n : Nat) :
    (getGradientIndex s p n).st.info = s.info := by
  simp only [getGradientIndex]
  repeat' split
  all_goals simp [init_info, rebuildGhistPage_info, ghistDiskRebuild_info]

theorem getEllpackBatches_info (s : DState) (p : BatchParam) :
    (getEllpackBatches s p).st.info = s.info := by
  simp only [getEllpackBatches]
  repeat' split
  all_goals simp


/-- C9: after construction, none of the batch-retrieval operations mutates the
dataset metadata (row count, column count, nonzero count, feature types);
each leaves `info` unchanged. -/
theorem batch_getters_preserve_metadata (s : DState) (p : BatchParam) (n : Nat) :
    (getRowBatches s).st.info = s.info ∧
    (getColumnBatches s).st.info = s.info ∧
    (getSortedColumnBatches s).st.info = s.info ∧
    (getGradientIndex s p n).st.info = s.info ∧
    (getEllpackBatches s p).st.info = s.info :=
  ⟨getRowBatches_info s, getColumnBatches_info s, getSortedColumnBatches_info s,
    getGradientIndex_info s p n, getEllpackBatches_info s p⟩

/-- C10: in a build without GPU support, every call to get ellpack batches
fails fatally with the GPU-capability assertion before producing an iterator,
for all parameters. -/
theorem getEllpackBatches_fatal (s : DState) (p : BatchParam) :
    getEllpackBatches s p = ⟨s, [], Except.error Err.gpuUnsupported⟩ := by
  simp [getEllpackBatches, assertGPUSupport, xgboostUseCuda]

/-- C7: a batch-parameter record with max-bin < 2 makes get histogram-index
batches fail fatally with an empty effect trace: no cache lookup, no
page-source initialization, no I/O. -/
theorem getGradientIndex_max_bin_fatal (s : DState) (p : BatchParam) (n : Nat)
    (h : p.max_bin < 2) :
    getGradientIndex s p n = ⟨s, [], Except.error Err.maxBinTooSmall⟩ := by
  simp [getGradientIndex, h]

/-- Witness for C7 at `max_bin = 1`. -/
theorem getGradientIndex_max_bin_fatal_witness :
    getGradientIndex demoState { max_bin := 1, hess := [], regen := false } 5 =
      ⟨demoState, [], Except.error Err.maxBinTooSmall⟩ :=
  getGradientIndex_max_bin_fatal demoState { max_bin := 1, hess := [], regen := false } 5
    (by decide)

/-- C4: construction fails fatally when the reduced column count is zero, and
the column / sorted-column getters fail fatally on a zero column count before
any derived source is created or reset (the trace holds only the registry
lookup, and every page source is left untouched). -/
theorem zero_columns_fatal :
    (∀ (batches : List RawBatch) (others : List Nat) (acc : ConstructAcc),
        constructLoop batches
            { n_features := 0, n_samples := 0, nnz := 0, n_batches := 0,
              fts := [], pages := [] } = Except.ok acc →
        allreduceMax acc.n_features others = 0 →
        construct batches others = Except.error Err.zeroColumns) ∧
    (∀ s : DState, s.info.num_col = 0 →
        (getColumnBatches s).out = Except.error Err.zeroColumns ∧
        (getColumnBatches s).trace = [Event.makeCache Fmt.col] ∧
        (getColumnBatches s).st.column_source = s.column_source ∧
        (getColumnBatches s).st.sorted_column_source = s.sorted_column_source ∧
        (getColumnBatches s).st.sparse_page_source = s.sparse_page_source ∧
        (getSortedColumnBatches s).out = Except.error Err.zeroColumns ∧
        (getSortedColumnBatches s).trace = [Event.makeCache Fmt.sortedCol] ∧
        (getSortedColumnBatches s).st.column_source = s.column_source ∧
        (getSortedColumnBatches s).st.sorted_column_source = s.sorted_column_source ∧
        (getSortedColumnBatches s).st.sparse_page_source = s.sparse_page_source) := by
  constructor
  · intro batches others acc hl hz
    simp [construct, hl, hz]
  · intro s hz
    simp [getColumnBatches, getSortedColumnBatches, hz]

/-- A raw batch with zero columns. -/
def zBatch : RawBatch := { rows := 1, cols := 0, nnz := 0, fts := [], hostQueryable := true }

/-- A state whose recorded column count is zero. -/
def zState : DState :=
  { demoState with info := { num_row := 0, num_col := 0, num_nonzero := 0, feature_types := [] } }

/-- Witness for C4 on a single zero-column batch and a zero-column state. -/
theorem zero_columns_fatal_witness :
    construct [zBatch] [] = Except.error Err.zeroColumns ∧
    (getColumnBatches zState).out = Except.error Err.zeroColumns :=
  ⟨zero_columns_fatal.1 [zBatch] []
      { n_features := 0, n_samples := 1, nnz := 0, n_batches := 1,
        fts := [], pages := [{ nnz := 0 }] } (by decide) (by decide),
    (zero_columns_fatal.2 zState (by decide)).1⟩


theorem getRowBatches_ok (s : DState) (h : rowCoherent s) :
    (getRowBatches s).out = Except.ok s.datasetPages ∧
    (getRowBatches s).st.datasetPages = s.datasetPages ∧
    rowCoherent (getRowBatches s).st := by
  have hok := init_ok s h
  obtain ⟨g, hg⟩ := init_source_pos s hok
  have hpages := (init_frame s).2.2.1
  have hcoh := init_rowCoherent s h
  unfold getRowBatches getRowBatchesImpl
  simp [hok, hg, hpages, hcoh]

theorem advance_frame (s : DState) (k : Nat) :
    (advanceRowSource s k).datasetPages = s.datasetPages ∧
    (advanceRowSource s k).rowCache = s.rowCache := by
  unfold advanceRowSource
  split <;> simp

theorem advance_rowCoherent (s : DState) (h : rowCoherent s) (k : Nat) :
    rowCoherent (advanceRowSource s k) := by
  cases hsrc : s.sparse_page_source with
  | none =>
    have hid : advanceRowSource s k = s := by simp [advanceRowSource, hsrc]
    rw [hid]
    exact h
  | some src =>
    intro e he hw
    simp [advanceRowSource, hsrc]

/-- C6: two successive calls to get row batches each yield the full, identical
page sequence from the first page; even if the first iterator was advanced by
`k` pages, the second call restarts from the beginning. -/
theorem getRowBatches_restart (s : DState) (h : rowCoherent s) (k : Nat) :
    (getRowBatches s).out = Except.ok s.datasetPages ∧
    (getRowBatches (advanceRowSource (getRowBatches s).st k)).out =
      Except.ok s.datasetPages := by
  have h1 := getRowBatches_ok s h
  refine ⟨h1.1, ?_⟩
  have h2 := advance_rowCoherent _ h1.2.2 k
  have h3 := getRowBatches_ok _ h2
  rw [h3.1, (advance_frame _ k).1, h1.2.1]

/-- Witness for C6 on the demo state, advancing the first iterator by 2. -/
theorem getRowBatches_restart_witness :
    (getRowBatches demoState).out = Except.ok demoState.datasetPages ∧
    (getRowBatches (advanceRowSource (getRowBatches demoState).st 2)).out =
      Except.ok demoState.datasetPages :=
  getRowBatches_restart demoState (fun _ _ _ => rfl) 2


theorem written_row_replay (s : DState) (e : CacheEntry) (src : SparseSource)
    (he : s.rowCache = some e) (hw : e.written = true)
    (hs : s.sparse_page_source = some src) :
    getRowBatches s =
      ⟨{ s with sparse_page_source := some { src with pos := 0 } },
        [Event.makeCache Fmt.row, Event.resetSource Fmt.row],
        Except.ok s.datasetPages⟩ := by
  unfold getRowBatches getRowBatchesImpl
  rw [init_written s e src he hw hs]
  simp

theorem written_col_replay (s : DState) (e : CacheEntry) (src : SparseSource)
    (dsc : DerivedSource)
    (he : s.rowCache = some e) (hw : e.written = true)
    (hs : s.sparse_page_source = some src)
    (hcol : s.info.num_col ≠ 0) (hd : s.column_source = some dsc) :
    (getColumnBatches s).trace =
      [Event.makeCache Fmt.col, Event.makeCache Fmt.row,
        Event.resetSource Fmt.row, Event.resetSource Fmt.col] ∧
    (getColumnBatches s).st.column_source = some { dsc with pos := 0 } ∧
    (getColumnBatches s).out = Except.ok { dsc with pos := 0 } := by
  simp only [getColumnBatches]
  have h1 := init_written { s with colCache := some (makeCacheEntry s.colCache s.nextGen).1, nextGen := (makeCacheEntry s.colCache s.nextGen).2 } e src he hw hs
  rw [h1]
  simp [hcol, hd]

theorem written_sortedCol_replay (s : DState) (e : CacheEntry) (src : SparseSource)
    (dsc : DerivedSource)
    (he : s.rowCache = some e) (hw : e.written = true)
    (hs : s.sparse_page_source = some src)
    (hcol : s.info.num_col ≠ 0) (hd : s.sorted_column_source = some dsc) :
    (getSortedColumnBatches s).trace =
      [Event.makeCache Fmt.sortedCol, Event.makeCache Fmt.row,
        Event.resetSource Fmt.row, Event.resetSource Fmt.sortedCol] ∧
    (getSortedColumnBatches s).st.sorted_column_source = some { dsc with pos := 0 } ∧
    (getSortedColumnBatches s).out = Except.ok { dsc with pos := 0 } := by
  simp only [getSortedColumnBatches]
  have h1 := init_written { s with sortedColCache := some (makeCacheEntry s.sortedColCache s.nextGen).1, nextGen := (makeCacheEntry s.sortedColCache s.nextGen).2 } e src he hw hs
  rw [h1]
  simp [hcol, hd]


theorem written_ghist_replay (s : DState) (e eg : CacheEntry) (src : SparseSource)
    (gsrc : GhistSource) (n : Nat)
    (he : s.rowCache = some e) (hw : e.written = true)
    (hs : s.sparse_page_source = some src)
    (heg : s.ghistCache = some eg) (hegw : eg.written = true)
    (hg : s.ghist_index_source = some gsrc)
    (hbin : ¬s.batch_param.max_bin < 2) (hhess : s.batch_param.hess ≠ [])
    (hregen : s.batch_param.regen = false) :
    (getGradientIndex s s.batch_param n).trace =
      [Event.makeCache Fmt.ghist, Event.makeCache Fmt.row,
        Event.resetSource Fmt.row, Event.resetSource Fmt.ghist] ∧
    (getGradientIndex s s.batch_param n).st.ghist_index_source =
      some { gsrc with pos := 0 } ∧
    (getGradientIndex s s.batch_param n).out =
      Except.ok (GhistBatches.fromSource { gsrc with pos := 0 }) := by
  simp only [getGradientIndex]
  have h1 := init_written { s with ghistCache := some (makeCacheEntry s.ghistCache s.nextGen).1, nextGen := (makeCacheEntry s.ghistCache s.nextGen).2 } e src he hw hs
  rw [h1]
  simp [hbin, hhess, hregen, makeCacheEntry, heg, hegw, hg]


/-- C5: when the row cache entry is fully written (and the sources being
requested exist), every request replays from disk: the external iterator is
never bound again, no page source is regenerated, and the existing sources are
only reset. -/
theorem written_cache_no_regeneration (s : DState) (e : CacheEntry) (src : SparseSource)
    (he : s.rowCache = some e) (hw : e.written = true)
    (hs : s.sparse_page_source = some src) :
    (Event.bindIterator ∉ (getRowBatches s).trace ∧
      (∀ f, Event.createSource f ∉ (getRowBatches s).trace) ∧
      (getRowBatches s).trace = [Event.makeCache Fmt.row, Event.resetSource Fmt.row] ∧
      (getRowBatches s).out = Except.ok s.datasetPages) ∧
    (∀ dsc, s.column_source = some dsc → s.info.num_col ≠ 0 →
      Event.bindIterator ∉ (getColumnBatches s).trace ∧
      (∀ f, Event.createSource f ∉ (getColumnBatches s).trace) ∧
      (getColumnBatches s).st.column_source = some { dsc with pos := 0 } ∧
      (getColumnBatches s).out = Except.ok { dsc with pos := 0 }) ∧
    (∀ dsc, s.sorted_column_source = some dsc → s.info.num_col ≠ 0 →
      Event.bindIterator ∉ (getSortedColumnBatches s).trace ∧
      (∀ f, Event.createSource f ∉ (getSortedColumnBatches s).trace) ∧
      (getSortedColumnBatches s).st.sorted_column_source = some { dsc with pos := 0 } ∧
      (getSortedColumnBatches s).out = Except.ok { dsc with pos := 0 }) ∧
    (∀ eg gsrc n, s.ghistCache = some eg → eg.written = true →
      s.ghist_index_source = some gsrc →
      ¬s.batch_param.max_bin < 2 → s.batch_param.hess ≠ [] →
      s.batch_param.regen = false →
      Event.bindIterator ∉ (getGradientIndex s s.batch_param n).trace ∧
      (∀ f, Event.createSource f ∉ (getGradientIndex s s.batch_param n).trace) ∧
      (∀ b, Event.sketch b ∉ (getGradientIndex s s.batch_param n).trace) ∧
      (getGradientIndex s s.batch_param n).st.ghist_index_source =
        some { gsrc with pos := 0 } ∧
      (getGradientIndex s s.batch_param n).out =
        Except.ok (GhistBatches.fromSource { gsrc with pos := 0 })) := by
  refine ⟨?_, ?_, ?_, ?_⟩
  · rw [written_row_replay s e src he hw hs]
    refine ⟨by simp, ?_, rfl, rfl⟩
    intro f
    cases f <;> simp
  · intro dsc hd hcol
    obtain ⟨ht, hsrc2, hout⟩ := written_col_replay s e src dsc he hw hs hcol hd
    rw [ht]
    exact ⟨by simp, fun f => by cases f <;> simp, hsrc2, hout⟩
  · intro dsc hd hcol
    obtain ⟨ht, hsrc2, hout⟩ := written_sortedCol_replay s e src dsc he hw hs hcol hd
    rw [ht]
    exact ⟨by simp, fun f => by cases f <;> simp, hsrc2, hout⟩
  · intro eg gsrc n heg hegw hg hbin hhess hregen
    obtain ⟨ht, hsrc2, hout⟩ :=
      written_ghist_replay s e eg src gsrc n he hw hs heg hegw hg hbin hhess hregen
    rw [ht]
    refine ⟨by simp, fun f => by cases f <;> simp, fun b => by cases b <;> simp,
      hsrc2, hout⟩

/-- A fully warmed-up state: every cache entry written, every source alive,
last-used parameters carrying a row weighting. -/
def fullState : DState :=
  { demoState with
      colCache := some { written := true, gen := 2 }
      sortedColCache := some { written := true, gen := 3 }
      ghistCache := some { written := true, gen := 4 }
      column_source := some { gen := 5, pos := 1, upstream := 1 }
      sorted_column_source := some { gen := 6, pos := 2, upstream := 1 }
      ghist_index_source := some
        { gen := 7, pos := 1, param := { max_bin := 8, hess := [1], regen := false },
          cuts := { maxBin := 8, sorted := false, hess := [1], nValues := 3 },
          isDense := false, ft := [1, 1], upstream := 1 }
      batch_param := { max_bin := 8, hess := [1], regen := false }
      nextGen := 8 }

/-- Witness for C5 on the warmed-up state. -/
theorem written_cache_no_regeneration_witness :
    Event.bindIterator ∉ (getRowBatches fullState).trace ∧
    Event.bindIterator ∉ (getColumnBatches fullState).trace ∧
    Event.bindIterator ∉ (getSortedColumnBatches fullState).trace ∧
    Event.bindIterator ∉ (getGradientIndex fullState fullState.batch_param 3).trace :=
  ⟨(written_cache_no_regeneration fullState { written := true, gen := 0 }
      { gen := 1, pos := 0 } rfl rfl rfl).1.1,
    ((written_cache_no_regeneration fullState { written := true, gen := 0 }
      { gen := 1, pos := 0 } rfl rfl rfl).2.1 { gen := 5, pos := 1, upstream := 1 }
      rfl (by decide)).1,
    ((written_cache_no_regeneration fullState { written := true, gen := 0 }
      { gen := 1, pos := 0 } rfl rfl rfl).2.2.1 { gen := 6, pos := 2, upstream := 1 }
      rfl (by decide)).1,
    ((written_cache_no_regeneration fullState { written := true, gen := 0 }
      { gen := 1, pos := 0 } rfl rfl rfl).2.2.2 { written := true, gen := 4 }
      { gen := 7, pos := 1, param := { max_bin := 8, hess := [1], regen := false },
        cuts := { maxBin := 8, sorted := false, hess := [1], nValues := 3 },
        isDense := false, ft := [1, 1], upstream := 1 } 3
      rfl rfl rfl (by decide) (by decide) rfl).1⟩

theorem rebuild_mem (s : DState) (p : BatchParam) (h : rowCoherent s) :
    Event.buildGhistPage ∈ (rebuildGhistPage s p).trace := by
  have hok := init_ok s h
  simp only [rebuildGhistPage, hok]
  split <;> simp


/-- C2: in the in-memory regime (no row weighting, no forced regen, max-bin
valid) the single-page histogram index is rebuilt iff no page exists, or the
parameters differ from the last-used ones and are non-default (regen being
requested is excluded by the regime); otherwise the existing page is served
unchanged.  In particular a first call with max_bin 256 followed by one with
max_bin 64 rebuilds on the second call. -/
theorem ghist_inmemory_rebuild_iff :
    (∀ (s : DState) (p : BatchParam) (n : Nat), rowCoherent s →
      ¬p.max_bin < 2 → p.hess = [] → p.regen = false →
      ((Event.buildGhistPage ∈ (getGradientIndex s p n).trace ↔
          s.ghist_index_page = none ∨ (p ≠ s.batch_param ∧ p ≠ defaultBatchParam)) ∧
        (∀ pg, s.ghist_index_page = some pg →
          ¬(p ≠ s.batch_param ∧ p ≠ defaultBatchParam) →
          getGradientIndex s p n = ⟨s, [], Except.ok (GhistBatches.singlePage pg)⟩))) ∧
    Event.buildGhistPage ∈
      (getGradientIndex (getGradientIndex demoState p256 5).st p64 5).trace := by
  constructor
  · intro s p n hcoh hbin hhess hregen
    have hreg : (p.hess.isEmpty && !p.regen) = true := by simp [hhess, hregen]
    constructor
    · cases hpg : s.ghist_index_page with
      | none =>
        simp only [getGradientIndex, hbin, hreg, hpg, if_true, if_false]
        simp [rebuild_mem s p hcoh, hbin]
      | some pg =>
        by_cases hd : p ≠ s.batch_param ∧ p ≠ defaultBatchParam
        · simp only [getGradientIndex, hbin, hreg, hpg]
          simp [hd, rebuild_mem s p hcoh, hbin]
        · simp [getGradientIndex, hbin, hreg, hpg, hd]
    · intro pg hpg hnd
      simp [getGradientIndex, hbin, hreg, hpg, hnd]
  · decide

/-- Witness for C2: the very first in-memory request builds the page. -/
theorem ghist_inmemory_rebuild_iff_witness :
    Event.buildGhistPage ∈ (getGradientIndex demoState p256 5).trace :=
  (ghist_inmemory_rebuild_iff.1 demoState p256 5 (fun _ _ _ => rfl) (by decide)
      rfl rfl).1.mpr (Or.inl rfl)


theorem constructLoop_gpu (batches : List RawBatch) (acc : ConstructAcc)
    (h : ∃ b ∈ batches, b.hostQueryable = false) :
    constructLoop batches acc = Except.error Err.gpuUnsupported := by
  induction batches generalizing acc with
  | nil => simp at h
  | cons b bs ih =>
    obtain ⟨b0, hb0, hq⟩ := h
    by_cases hbq : b.hostQueryable
    · have hs : scanBatch acc b =
          Except.ok
            { n_features := max acc.n_features b.cols,
              n_samples := acc.n_samples + b.rows, nnz := acc.nnz + b.nnz,
              n_batches := acc.n_batches + 1, fts := extendFts acc.fts b.fts,
              pages := acc.pages ++ [{ nnz := b.nnz }] } := by
        simp [scanBatch, numRows, numCols, hbq]
      simp only [constructLoop, hs]
      apply ih
      rcases List.mem_cons.mp hb0 with hb | hb
      · rw [hb] at hq; rw [hq] at hbq; simp at hbq
      · exact ⟨b0, hb, hq⟩
    · have hb' : b.hostQueryable = false := by simpa using hbq
      simp [constructLoop, scanBatch, numCols, NFeaturesDevice, assertGPUSupport,
        xgboostUseCuda, hb']

/-- C8: when the host-side type dispatch cannot inspect a raw batch, the
row/column query falls back to the device-side path, which in a CPU-only
build fails fatally with the capability-missing error and never yields a
count; a construction pass containing such a batch is fatal. -/
theorem dispatch_miss_device_fallback :
    (∀ b : RawBatch, b.hostQueryable = false →
        numRows b = NSamplesDevice b ∧ numCols b = NFeaturesDevice b ∧
        numRows b = Except.error Err.gpuUnsupported ∧
        numCols b = Except.error Err.gpuUnsupported ∧
        (∀ v : Nat, numRows b ≠ Except.ok v) ∧
        (∀ v : Nat, numCols b ≠ Except.ok v)) ∧
    (∀ (batches : List RawBatch) (others : List Nat) (b : RawBatch),
        b ∈ batches → b.hostQueryable = false →
        construct batches others = Except.error Err.gpuUnsupported) := by
  constructor
  · intro b hb
    simp [numRows, numCols, NSamplesDevice, NFeaturesDevice, assertGPUSupport,
      xgboostUseCuda, hb]
  · intro batches others b hmem hb
    have hl := constructLoop_gpu batches
      { n_features := 0, n_samples := 0, nnz := 0, n_batches := 0, fts := [], pages := [] }
      ⟨b, hmem, hb⟩
    simp [construct, hl]

/-- A device-resident raw batch: the host dispatch misses. -/
def devBatch : RawBatch := { rows := 4, cols := 2, nnz := 3, fts := [], hostQueryable := false }

/-- Witness for C8 on a device-resident batch. -/
theorem dispatch_miss_device_fallback_witness :
    numRows devBatch = Except.error Err.gpuUnsupported ∧
    construct [devBatch] [] = Except.error Err.gpuUnsupported :=
  ⟨(dispatch_miss_device_fallback.1 devBatch rfl).2.2.1,
    dispatch_miss_device_fallback.2 [devBatch] [] devBatch (by simp) rfl⟩

theorem constructLoop_sums (batches : List RawBatch) (acc acc2 : ConstructAcc)
    (h : constructLoop batches acc = Except.ok acc2) :
    acc2.n_samples = acc.n_samples + (batches.map RawBatch.rows).sum ∧
    acc2.nnz = acc.nnz + (batches.map RawBatch.nnz).sum ∧
    acc2.n_features = batches.foldl (fun a b => max a b.cols) acc.n_features := by
  induction batches generalizing acc with
  | nil =>
    simp [constructLoop] at h
    subst h
    simp
  | cons b bs ih =>
    by_cases hbq : b.hostQueryable
    · have hs : scanBatch acc b =
          Except.ok
            { n_features := max acc.n_features b.cols,
              n_samples := acc.n_samples + b.rows, nnz := acc.nnz + b.nnz,
              n_batches := acc.n_batches + 1, fts := extendFts acc.fts b.fts,
              pages := acc.pages ++ [{ nnz := b.nnz }] } := by
        simp [scanBatch, numRows, numCols, hbq]
      rw [constructLoop, hs] at h
      obtain ⟨h1, h2, h3⟩ := ih _ h
      refine ⟨?_, ?_, ?_⟩
      · rw [h1]; simp; omega
      · rw [h2]; simp; omega
      · rw [h3]; simp
    · have hb' : b.hostQueryable = false := by simpa using hbq
      rw [constructLoop] at h
      simp [scanBatch, numCols, NFeaturesDevice, assertGPUSupport,
        xgboostUseCuda, hb'] at h

/-- C1: for every delivered batch sequence, the constructed metadata has row
count the sum of per-batch row counts, nonzero count the sum of per-batch
nonzero counts, and column count the distributed-max reduction of the running
maximum of per-batch column counts. -/
theorem construct_metadata (batches : List RawBatch) (others : List Nat) (s : DState)
    (h : construct batches others = Except.ok s) :
    s.info.num_row = (batches.map RawBatch.rows).sum ∧
    s.info.num_nonzero = (batches.map RawBatch.nnz).sum ∧
    s.info.num_col =
      allreduceMax (batches.foldl (fun a b => max a b.cols) 0) others := by
  unfold construct at h
  cases hl : constructLoop batches
      { n_features := 0, n_samples := 0, nnz := 0, n_batches := 0,
        fts := [], pages := [] } with
  | error e => rw [hl] at h; simp at h
  | ok acc =>
    rw [hl] at h
    by_cases hz : allreduceMax acc.n_features others = 0
    · simp [hz] at h
    · simp only [hz, if_false] at h
      obtain ⟨h1, h2, h3⟩ := constructLoop_sums _ _ _ hl
      cases h
      constructor
      · simpa using h1
      constructor
      · simpa using h2
      · rw [← h3]

/-- Witness for C1: the demo dataset (100/150/50 rows, 20 columns, nonzeros
7/8/9). -/
theorem construct_metadata_witness :
    demoState.info.num_row = (demoBatches.map RawBatch.rows).sum ∧
    demoState.info.num_nonzero = (demoBatches.map RawBatch.nnz).sum ∧
    demoState.info.num_col =
      allreduceMax (demoBatches.foldl (fun a b => max a b.cols) 0) [] :=
  construct_metadata demoBatches [] demoState (by decide)


theorem cond_equiv (s : DState) (p : BatchParam)
    (hreg : (p.hess.isEmpty && !p.regen) = false) :
    (ghistRebuildCond s p ↔
      (¬(makeCacheEntry s.ghistCache s.nextGen).1.written = true ∨
        (s.batch_param ≠ p ∧ p ≠ defaultBatchParam) ∨ p.regen = true)) := by
  cases hr : p.regen with
  | true => simp [ghistRebuildCond, hr]
  | false =>
    have hhe : p.hess.isEmpty = false := by
      rw [hr] at hreg
      simpa using hreg
    have hne : p ≠ defaultBatchParam := by
      intro hpd
      rw [hpd] at hhe
      simp [defaultBatchParam] at hhe
    cases hc : s.ghistCache with
    | none => simp [ghistRebuildCond, hc, makeCacheEntry, hr]
    | some eg =>
      simp [ghistRebuildCond, hc, makeCacheEntry, hr, hne]

theorem ghistDiskRebuild_spec (s3 : DState) (p : BatchParam) (n : Nat)
    (hcoh : rowCoherent s3) (hn : n ≠ 0) :
    Event.sketch p.regen ∈ (ghistDiskRebuild s3 p n).trace ∧
    (∀ b, Event.sketch b ∈ (ghistDiskRebuild s3 p n).trace → b = p.regen) ∧
    Event.eraseCache Fmt.ghist ∉ (ghistDiskRebuild s3 p n).trace ∧
    (ghistDiskRebuild s3 p n).st.ghistCache = s3.ghistCache ∧
    (ghistDiskRebuild s3 p n).st.batch_param = p ∧
    (∃ src, (ghistDiskRebuild s3 p n).st.ghist_index_source = some src ∧
      (ghistDiskRebuild s3 p n).out = Except.ok (GhistBatches.fromSource src) ∧
      src.cuts =
        { maxBin := p.max_bin, sorted := p.regen, hess := p.hess, nValues := n } ∧
      src.ft = s3.info.feature_types ∧
      src.isDense = isDense s3 ∧
      src.param = p ∧
      (∃ sp, (ghistDiskRebuild s3 p n).st.sparse_page_source = some sp ∧
        src.upstream = sp.gen)) := by
  have hok := init_ok s3 hcoh
  obtain ⟨g2, hg2⟩ := init_source_pos s3 hok
  have hinfo := init_info s3
  rcases init_trace_cases s3 with ht | ht | ht <;>
  · simp only [ghistDiskRebuild, hok, ht, hg2]
    simp [hn, isDense, hinfo, hg2, ht, init_ghistCache]


theorem rowCoherent_set_ghist (s : DState) (x : Option CacheEntry) (y : Nat)
    (h : rowCoherent s) : rowCoherent { s with ghistCache := x, nextGen := y } :=
  fun e he hw => h e he hw

theorem init_ghistSource (s : DState) :
    (initializeSparsePage s).st.ghist_index_source = s.ghist_index_source :=
  (init_frame s).2.2.2.2.2.2.2.2.2.1

theorem diskRebuild_branch_facts (s u : DState) (tr : List Event) (p : BatchParam) (n : Nat)
    (hcohu : rowCoherent u) (hn : n ≠ 0)
    (htr : tr = [Event.makeCache Fmt.row, Event.resetSource Fmt.row] ∨
      tr = [Event.makeCache Fmt.row, Event.bindIterator, Event.createSource Fmt.row] ∨
      tr = [Event.makeCache Fmt.row])
    (hI : u.info = s.info) :
    let S3 : DState := { u with ghistCache := some { written := false, gen := u.nextGen }, nextGen := u.nextGen + 1 }
    let R := ghistDiskRebuild S3 p n
    let Res : StepResult GhistBatches :=
      ⟨R.st, Event.makeCache Fmt.ghist :: tr ++
        Event.eraseCache Fmt.ghist :: Event.makeCache Fmt.ghist :: R.trace, R.out⟩
    Event.eraseCache Fmt.ghist ∈ Res.trace ∧
    Event.sketch p.regen ∈ Res.trace ∧
    (∀ b, Event.sketch b ∈ Res.trace → b = p.regen) ∧
    (∃ e2, Res.st.ghistCache = some e2 ∧ e2.written = false) ∧
    Res.st.batch_param = p ∧
    (∃ src, Res.st.ghist_index_source = some src ∧
      Res.out = Except.ok (GhistBatches.fromSource src) ∧
      src.cuts = { maxBin := p.max_bin, sorted := p.regen, hess := p.hess, nValues := n } ∧
      src.ft = s.info.feature_types ∧
      src.isDense = isDense s ∧
      src.param = p ∧
      (∃ sp, Res.st.sparse_page_source = some sp ∧ src.upstream = sp.gen)) := by
  intro S3 R Res
  have hcoh3 : rowCoherent S3 := rowCoherent_set_ghist u _ _ hcohu
  obtain ⟨hm1, hm2, hm3, hgc, hbp, src, hsrc, hout, hcuts, hft, hdense, hparam, sp, hsp, hup⟩ :=
    ghistDiskRebuild_spec S3 p n hcoh3 hn
  have hSinfo : S3.info = u.info := rfl
  refine ⟨by simp [Res], by simp [Res, R, hm1], ?_, ⟨{ written := false, gen := u.nextGen }, by simp [Res, R, hgc, S3], rfl⟩, by simp [Res, R, hbp], ?_⟩
  · intro b hb
    rcases htr with h | h | h <;> subst h <;> simp [Res, R] at hb <;> exact hm2 b hb
  · refine ⟨src, by simp [Res, R, hsrc], by simp [Res, R, hout], hcuts, ?_, ?_, hparam, ⟨sp, by simp [Res, R, hsp], hup⟩⟩
    · rw [hft, hSinfo, hI]
    · rw [hdense]
      simp [isDense, hSinfo, hI]

/-- C3: in the on-disk regime of get histogram-index batches (row weighting
present or regen forced), when no cache entry exists, the entry is not fully
written, the parameters differ from the last-used ones, or regen is forced,
the cache entry is erased and recreated unwritten, fresh cuts are computed
with sorted-order statistics exactly when regen is forced, and the
histogram-index source is discarded and rebuilt bound to the new cuts, the
feature types, the density flag and the shared row-page source; otherwise the
existing source is only reset. -/
theorem ghist_disk_regime (s : DState) (p : BatchParam) (n : Nat)
    (hcoh : rowCoherent s) (hbin : ¬p.max_bin < 2)
    (hreg : (p.hess.isEmpty && !p.regen) = false) (hn : n ≠ 0) :
    (ghistRebuildCond s p →
      Event.eraseCache Fmt.ghist ∈ (getGradientIndex s p n).trace ∧
      Event.sketch p.regen ∈ (getGradientIndex s p n).trace ∧
      (∀ b, Event.sketch b ∈ (getGradientIndex s p n).trace → b = p.regen) ∧
      (∃ e2, (getGradientIndex s p n).st.ghistCache = some e2 ∧ e2.written = false) ∧
      (getGradientIndex s p n).st.batch_param = p ∧
      (∃ src, (getGradientIndex s p n).st.ghist_index_source = some src ∧
        (getGradientIndex s p n).out = Except.ok (GhistBatches.fromSource src) ∧
        src.cuts =
          { maxBin := p.max_bin, sorted := p.regen, hess := p.hess, nValues := n } ∧
        src.ft = s.info.feature_types ∧
        src.isDense = isDense s ∧
        src.param = p ∧
        (∃ sp, (getGradientIndex s p n).st.sparse_page_source = some sp ∧
          src.upstream = sp.gen))) ∧
    (¬ghistRebuildCond s p →
      ∀ gsrc, s.ghist_index_source = some gsrc →
        (getGradientIndex s p n).st.ghist_index_source = some { gsrc with pos := 0 } ∧
        (getGradientIndex s p n).out =
          Except.ok (GhistBatches.fromSource { gsrc with pos := 0 }) ∧
        Event.eraseCache Fmt.ghist ∉ (getGradientIndex s p n).trace ∧
        (∀ b, Event.sketch b ∉ (getGradientIndex s p n).trace) ∧
        Event.createSource Fmt.ghist ∉ (getGradientIndex s p n).trace) := by
  have hequiv := cond_equiv s p hreg
  have hcoh1 := rowCoherent_set_ghist s (some (makeCacheEntry s.ghistCache s.nextGen).1) (makeCacheEntry s.ghistCache s.nextGen).2 hcoh
  have hok1 := init_ok _ hcoh1
  have hcoh2 := init_rowCoherent _ hcoh1
  constructor
  · intro hcond
    have hbr := hequiv.mp hcond
    simp only [getGradientIndex, hbin, hreg]
    rw [if_neg not_false, if_neg (by simp : ¬(false = true))]
    simp only [hok1]
    rw [if_pos hbr]
    exact diskRebuild_branch_facts s _ _ p n hcoh2 hn (init_trace_cases _) (init_info _)
  · intro hncond gsrc hg
    have hbr : ¬(¬(makeCacheEntry s.ghistCache s.nextGen).1.written = true ∨
        (s.batch_param ≠ p ∧ p ≠ defaultBatchParam) ∨ p.regen = true) :=
      fun x => hncond (hequiv.mpr x)
    simp only [getGradientIndex, hbin, hreg]
    rw [if_neg not_false, if_neg (by simp : ¬(false = true))]
    simp only [hok1]
    rw [if_neg hbr]
    simp only [init_ghistSource, hg]
    rcases init_trace_cases { s with ghistCache := some (makeCacheEntry s.ghistCache s.nextGen).1, ghist_index_source := some gsrc, nextGen := (makeCacheEntry s.ghistCache s.nextGen).2 } with h | h | h <;>
      exact ⟨by simp, by simp, by simp [h], fun b => by simp [h], by simp [h]⟩


/-- Batch parameters with a row weighting, selecting the on-disk regime. -/
def pHess : BatchParam := { max_bin := 10, hess := [3], regen := false }

/-- Witness for C3: the first on-disk request erases and recreates the cache
entry and computes approximate-order cuts. -/
theorem ghist_disk_regime_witness :
    Event.eraseCache Fmt.ghist ∈ (getGradientIndex demoState pHess 5).trace ∧
    Event.sketch false ∈ (getGradientIndex demoState pHess 5).trace :=
  ⟨((ghist_disk_regime demoState pHess 5 (fun _ _ _ => rfl) (by decide) rfl
        (by decide)).1 (Or.inl rfl)).1,
    ((ghist_disk_regime demoState pHess 5 (fun _ _ _ => rfl) (by decide) rfl
        (by decide)).1 (Or.inl rfl)).2.1⟩

end SparsePageDMatrix
